import Mathlib

/-!
Shallow embedding of the ONNX backend of this inference server
(src/backends/onnx/onnx_backend.cc together with the backend's header and
src/backends/onnx/onnx_utils.h), with theorems checking the specification's
claims about instance resolution, context creation and schema validation,
the batched `Run` path, and run-scoped resource release.

Modelling conventions:
- C++ `Status` becomes a `Status` structure (code plus message); `Status::Success`
  and `IsOk` follow the source.
- Machine integers: `int` fields (`gpu_device_`, `max_batch_size_`) are `Int`;
  `size_t` quantities are `Nat`, and the C cast `(size_t)max_batch_size_` at the
  batch-size check is modelled explicitly modulo 2^64 (`sizeTCast`).
- The ONNX runtime (an external collaborator) is an oracle: `Ort` for `OrtRun`,
  `OrtEnv` for session creation / CUDA device queries.  `OrtValue*` handles are
  `Option Nat` (`none` = nullptr).
- Logging and the per-payload stats/timer bookkeeping in the dispatcher are not
  modelled (they touch no state the claims are about).
- Each operation additionally returns a list of `Event`s recording the
  externally observable calls it performed (fan-in attempts, the single
  `OrtRun` invocation, output distribution, schema validation, resource
  release, completion callback), so that ordering and "zero invocations"
  claims are statable.
-/

namespace OnnxSpec

/-- Request status codes (subset of `RequestStatusCode` used by this backend). -/
inductive RequestStatusCode
  | SUCCESS
  | INTERNAL
  | UNSUPPORTED
  | INVALID_ARG
  | NOT_FOUND
deriving DecidableEq, Repr

/-- A `Status` is a code plus a human-readable message. -/
structure Status where
  code : RequestStatusCode
  msg : String
deriving DecidableEq, Repr

/-- `Status::Success`. -/
def Status.Success : Status := ⟨RequestStatusCode.SUCCESS, ""⟩

/-- `Status::IsOk()`. -/
def Status.IsOk (s : Status) : Bool := s.code = RequestStatusCode.SUCCESS

/-- Logical datatypes of the model configuration (subset of the `DataType`
protobuf enum; the embedding only needs distinguishable values). -/
inductive DataType
  | TYPE_INVALID
  | TYPE_BOOL
  | TYPE_FP32
  | TYPE_INT8
  | TYPE_STRING
deriving DecidableEq, Repr

/-- `DataType_Name`, the protobuf enum-name function. -/
def DataType_Name : DataType → String
  | DataType.TYPE_INVALID => "TYPE_INVALID"
  | DataType.TYPE_BOOL => "TYPE_BOOL"
  | DataType.TYPE_FP32 => "TYPE_FP32"
  | DataType.TYPE_INT8 => "TYPE_INT8"
  | DataType.TYPE_STRING => "TYPE_STRING"

/-- ONNX-runtime-native element types (subset; `UNDEFINED` is
`ONNX_TENSOR_ELEMENT_DATA_TYPE_UNDEFINED`). -/
inductive ONNXTensorElementDataType
  | UNDEFINED
  | FLOAT
  | BOOL
  | INT8
  | STRING
deriving DecidableEq, Repr

/-- One declared input of a request header (`InferRequestHeader::Input`):
its name and its dims. -/
structure InputInfo where
  name : String
  dims : List Int
deriving DecidableEq, Repr

/-- The request header of one payload: batch size (`uint32`) and declared inputs. -/
structure RequestHeader where
  batch_size : Nat
  input : List InputInfo
deriving DecidableEq, Repr

/-- One entry of the request provider's input-override side table
(`InferRequestProvider::InputOverride`). -/
structure InputOverride where
  datatype : DataType
  dims : List Int
deriving DecidableEq, Repr

/-- The request provider of one payload: its header and the optional
input-override map (`GetInputOverride()`, a possibly-null shared map). -/
structure RequestProvider where
  requestHeader : RequestHeader
  inputOverride : Option (List (String × InputOverride))
deriving DecidableEq, Repr

/-- One scheduler payload (`Scheduler::Payload`): its mutable status and its
request provider.  Timers/stats are not modelled. -/
structure Payload where
  status : Status
  requestProvider : RequestProvider
deriving DecidableEq, Repr

/-- A declared model input from the configuration (`ModelInput`). -/
structure ModelInput where
  name : String
  data_type : DataType
  dims : List Int
deriving DecidableEq, Repr

/-- A declared model output from the configuration (`ModelOutput`). -/
structure ModelOutput where
  name : String
  data_type : DataType
  dims : List Int
deriving DecidableEq, Repr

/-- The model configuration fields this backend reads. -/
structure ModelConfig where
  max_batch_size : Int
  default_model_filename : String
  cc_model_filenames : List (String × String)
  input : List ModelInput
  output : List ModelOutput
deriving DecidableEq, Repr

/-- An `OrtValue*`: `none` is nullptr, `some h` an owned tensor handle. -/
abbrev OrtValue := Option Nat

/-- A loaded ONNX session, as far as this backend observes it: the input and
output names that the runtime instance actually exposes. -/
structure Session where
  inputNames : List String
  outputNames : List String
deriving DecidableEq, Repr

/-- One execution context (`OnnxBackend::Context`): instance name, device
binding, effective max batch size, the loaded session, and the two transient
tensor-handle containers that are reset and reused for every run. -/
structure OnnxBackend.Context where
  name : String
  gpu_device : Int
  max_batch_size : Int
  session : Option Session
  input_tensors : List OrtValue
  output_tensors : List OrtValue
deriving DecidableEq, Repr

/-- `Context::NO_GPU_DEVICE`. -/
def OnnxBackend.Context.NO_GPU_DEVICE : Int := -1

/-- `Context::NO_BATCHING`. -/
def OnnxBackend.Context.NO_BATCHING : Int := 0

/-- The backend: model name, configuration, and the per-instance contexts. -/
structure OnnxBackend where
  name : String
  config : ModelConfig
  contexts : List OnnxBackend.Context
deriving DecidableEq, Repr

/-- The ONNX runtime invocation oracle (`OrtRun`): given the input names, the
input tensor handles and the requested output names, it either fails with a
native (code, message) pair or produces the output tensor handles. -/
structure Ort where
  run : List String → List OrtValue → List String → Except (Nat × String) (List OrtValue)

/-- The environment oracle used at context creation: CUDA device properties
(compute capability major/minor per device), the CUDA execution-provider
append step, session creation from a model path, and allocator-info creation.
Failures carry the native (code, message) pair wrapped by RETURN_IF_ORT_ERROR. -/
structure OrtEnv where
  deviceProps : Int → Except String (Nat × Nat)
  appendCudaProvider : Int → Option (Nat × String)
  createSession : String → Except (Nat × String) Session
  createCpuAllocatorInfo : Option (Nat × String)

/-- Externally observable events of one backend operation. -/
inductive Event
  | setInput (name : String)
  | ortRun
  | readOutputs
  | validateIns
  | validateOuts
  | release
  | callback (s : Status)
deriving DecidableEq, Repr

/-- The Status produced by RETURN_IF_ORT_ERROR from a native (code, message). -/
def ortError (code : Nat) (msg : String) : Status :=
  ⟨RequestStatusCode.INTERNAL, "onnx runtime error " ++ toString code ++ ": " ++ msg⟩

/-- The C cast `(size_t)m` of a (64-bit-extended) signed value. -/
def sizeTCast (m : Int) : Nat := (m % (2 ^ 64 : Int)).toNat

/-- The batch-size check of `Context::Run` (onnx_backend.cc line 323):
a total is rejected iff it is not 1 and exceeds `(size_t)max_batch_size_`. -/
def batchSizeRejected (total : Nat) (max_batch_size : Int) : Bool :=
  (total != 1) && (total > sizeTCast max_batch_size)

/-- The first loop of `Context::Run`: walk the payloads, failing at the first
payload whose status is not OK, otherwise accumulating the total batch size
and remembering the last payload's request provider as the representative. -/
def collectBatch (name : String) :
    List Payload → Nat → Option RequestProvider →
    Except Status (Nat × Option RequestProvider)
  | [], total, rep => Except.ok (total, rep)
  | p :: rest, total, _rep =>
    if p.status.IsOk then
      collectBatch name rest (total + p.requestProvider.requestHeader.batch_size)
        (some p.requestProvider)
    else
      Except.error
        ⟨RequestStatusCode.INTERNAL,
          "unexpected payload with non-OK status given to runner for '" ++ name ++ "'"⟩

/-- Sum of the payloads' batch sizes. -/
def sumBatch : List Payload → Nat
  | [] => 0
  | p :: rest => p.requestProvider.requestHeader.batch_size + sumBatch rest

/-- The representative provider after walking the payloads (the last one seen). -/
def repOf : List Payload → Option RequestProvider → Option RequestProvider
  | [], rep => rep
  | p :: rest, _ => repOf rest (some p.requestProvider)

/-- Modelled from the spec: `InferenceBackend::GetInput` (src/core is not among
the provided sources) looks up the declared input with the given name in the
model configuration; a missing name is a non-OK status naming the input. -/
def GetInput (cfg : ModelConfig) (name : String) : Option ModelInput :=
  cfg.input.find? (fun i => i.name = name)

/-- `Context::SetInputTensor`.  In this source snapshot the function body is an
unconditional early `return Status(UNSUPPORTED, "SetInputTensor() implemented")`;
the concatenation and tensor creation below that return are unreachable, so no
input name is appended, no tensor handle is created and no state is mutated.
Returns (status, context, appended input names, events). -/
def OnnxBackend.Context.SetInputTensor (ctx : OnnxBackend.Context)
    (name : String) (_datatype : DataType) (_dims : List Int)
    (_total_batch_size : Nat) (_payloads : List Payload) :
    Status × OnnxBackend.Context × List String × List Event :=
  (⟨RequestStatusCode.UNSUPPORTED, "SetInputTensor() implemented"⟩, ctx, [],
    [Event.setInput name])

/-- The fan-in loop of `Context::Run` over the representative header's declared
inputs: for each, look up its configuration (`GetInput`) and call
`SetInputTensor`, stopping at the first failure. -/
def fanIn (ctx : OnnxBackend.Context) (cfg : ModelConfig) (total : Nat)
    (payloads : List Payload) :
    List InputInfo → Status × OnnxBackend.Context × List String × List Event
  | [] => (Status.Success, ctx, [], [])
  | i :: rest =>
    match GetInput cfg i.name with
    | none =>
      (⟨RequestStatusCode.INVALID_ARG,
         "unexpected inference input '" ++ i.name ++ "'"⟩, ctx, [], [])
    | some input_config =>
      let r1 := ctx.SetInputTensor i.name input_config.data_type i.dims total payloads
      if r1.1.IsOk then
        let r2 := fanIn r1.2.1 cfg total payloads rest
        (r2.1, r2.2.1, r1.2.2.1 ++ r2.2.2.1, r1.2.2.2 ++ r2.2.2.2)
      else
        r1

/-- The fan-in loop of `Context::Run` over the input-override map: each entry is
fed to `SetInputTensor` with the override's datatype and dims. -/
def fanInOverrides (ctx : OnnxBackend.Context) (total : Nat)
    (payloads : List Payload) :
    List (String × InputOverride) →
    Status × OnnxBackend.Context × List String × List Event
  | [] => (Status.Success, ctx, [], [])
  | (name, ov) :: rest =>
    let r1 := ctx.SetInputTensor name ov.datatype ov.dims total payloads
    if r1.1.IsOk then
      let r2 := fanInOverrides r1.2.1 total payloads rest
      (r2.1, r2.2.1, r1.2.2.1 ++ r2.2.2.1, r1.2.2.2 ++ r2.2.2.2)
    else
      r1

/-- `Context::ReadOutputTensors`.  In this source snapshot the function body is
an unconditional early `return Status(UNSUPPORTED, "ReadOutputTensors() implemented")`;
the output-copy loop below that return is unreachable, so no payload output is
ever written. -/
def OnnxBackend.Context.ReadOutputTensors (_ctx : OnnxBackend.Context)
    (_total_batch_size : Nat) (_output_names : List String)
    (_payloads : List Payload) : Status × List Event :=
  (⟨RequestStatusCode.UNSUPPORTED, "ReadOutputTensors() implemented"⟩,
    [Event.readOutputs])

/-- The body of `Context::Run` after the batch-size checks have passed: fan-in
over the representative's declared inputs, fan-in over the override map,
reservation of the output placeholders, the single `OrtRun` invocation, and
output distribution.  Returns (status, context, payloads, events); the payload
list is returned unchanged because nothing on this path writes any payload
field. -/
def OnnxBackend.Context.RunBody (ctx : OnnxBackend.Context) (cfg : ModelConfig)
    (ort : Ort) (rep : RequestProvider) (total : Nat) (payloads : List Payload) :
    Status × OnnxBackend.Context × List Payload × List Event :=
  let r1 := fanIn ctx cfg total payloads rep.requestHeader.input
  if r1.1.IsOk then
    let r2 :=
      match rep.inputOverride with
      | none => (Status.Success, r1.2.1, ([] : List String), ([] : List Event))
      | some ovs => fanInOverrides r1.2.1 total payloads ovs
    if r2.1.IsOk then
      let output_names := cfg.output.map ModelOutput.name
      let ctx3 : OnnxBackend.Context :=
        { r2.2.1 with
          output_tensors :=
            r2.2.1.output_tensors ++ cfg.output.map (fun _ => (none : OrtValue)) }
      match ort.run (r1.2.2.1 ++ r2.2.2.1) ctx3.input_tensors output_names with
      | Except.error e =>
        (ortError e.1 e.2, ctx3, payloads,
          r1.2.2.2 ++ r2.2.2.2 ++ [Event.ortRun])
      | Except.ok outs =>
        let ctx4 : OnnxBackend.Context := { ctx3 with output_tensors := outs }
        let r3 := ctx4.ReadOutputTensors total output_names payloads
        (r3.1, ctx4, payloads, r1.2.2.2 ++ r2.2.2.2 ++ [Event.ortRun] ++ r3.2)
    else
      (r2.1, r2.2.1, payloads, r1.2.2.2 ++ r2.2.2.2)
  else
    (r1.1, r1.2.1, payloads, r1.2.2.2)

/-- `Context::Run`: reject any payload with a non-OK status; a zero total batch
size is a no-op success; reject a total that is not 1 and exceeds
`(size_t)max_batch_size_`; otherwise continue with `RunBody`.  The
`(_, none)` case with a nonzero total is unreachable (a nonzero total needs at
least one OK payload, which sets the representative — see
`repOf_eq_none`); the C++ would dereference a null provider there. -/
def OnnxBackend.Context.Run (ctx : OnnxBackend.Context) (cfg : ModelConfig)
    (ort : Ort) (payloads : List Payload) :
    Status × OnnxBackend.Context × List Payload × List Event :=
  match collectBatch ctx.name payloads 0 none with
  | Except.error s => (s, ctx, payloads, [])
  | Except.ok (total, rep) =>
    if total = 0 then
      (Status.Success, ctx, payloads, [])
    else if batchSizeRejected total ctx.max_batch_size then
      (⟨RequestStatusCode.INTERNAL,
         "dynamic batch size " ++ toString total ++ " for '" ++ ctx.name ++
           "', max allowed is " ++ toString ctx.max_batch_size⟩,
        ctx, payloads, [])
    else
      match rep with
      | none => (Status.Success, ctx, payloads, [])
      | some r => ctx.RunBody cfg ort r total payloads

/-- `Context::ReleaseOrtRunResources`: free every non-null transient tensor
handle and clear both containers. -/
def OnnxBackend.Context.ReleaseOrtRunResources (ctx : OnnxBackend.Context) :
    OnnxBackend.Context :=
  { ctx with input_tensors := [], output_tensors := [] }

/-- `OnnxBackend::Run`, the dispatcher: an out-of-range runner index invokes the
completion callback once with an error; otherwise the context's `Run` executes,
`ReleaseOrtRunResources` runs regardless of the run status, and the callback is
invoked once with that status. -/
def OnnxBackend.Run (b : OnnxBackend) (ort : Ort) (runner_idx : Nat)
    (payloads : List Payload) : OnnxBackend × List Payload × List Event :=
  match b.contexts[runner_idx]? with
  | none =>
    (b, payloads,
      [Event.callback
        ⟨RequestStatusCode.INTERNAL,
          "unexpected runner index" ++ toString runner_idx ++ ", max allowed " ++
            toString b.contexts.length⟩])
  | some ctx =>
    let r := ctx.Run b.config ort payloads
    let released := r.2.1.ReleaseOrtRunResources
    ({ b with contexts := b.contexts.set runner_idx released }, r.2.2.1,
      r.2.2.2 ++ [Event.release, Event.callback r.1])

/-- Modelled from the spec: `InputNames` of onnx_utils (onnx_utils.cc is not
among the provided sources; only its declaration is) queries the runtime
session for the input names it actually exposes. -/
def InputNames (s : Session) : List String := s.inputNames

/-- Modelled from the spec: `OutputNames` of onnx_utils (onnx_utils.cc is not
among the provided sources; only its declaration is) queries the runtime
session for the output names it actually exposes. -/
def OutputNames (s : Session) : List String := s.outputNames

/-- Modelled from the spec: `CheckAllowedModelInput` (src/core/model_config_utils
is not among the provided sources) fails, naming the offending input, when a
declared input name is absent from the runtime's exposed input names. -/
def CheckAllowedModelInput (io : ModelInput) (allowed : List String) : Status :=
  if allowed.contains io.name then Status.Success
  else
    ⟨RequestStatusCode.INVALID_ARG,
      "unexpected inference input '" ++ io.name ++ "'"⟩

/-- Modelled from the spec: `CheckAllowedModelOutput` (src/core/model_config_utils
is not among the provided sources) fails, naming the offending output, when a
declared output name is absent from the runtime's exposed output names. -/
def CheckAllowedModelOutput (io : ModelOutput) (allowed : List String) : Status :=
  if allowed.contains io.name then Status.Success
  else
    ⟨RequestStatusCode.INVALID_ARG,
      "unexpected inference output '" ++ io.name ++ "'"⟩

/-- The per-input loop of `Context::ValidateInputs`: each declared input must be
among the exposed input names, and its logical datatype must convert to a
defined runtime-native datatype (`ConvertDataType`, whose definition lives in
onnx_utils.cc outside the provided sources, is a parameter `convert`). -/
def validateInputList (name_ : String) (input_node_names : List String)
    (convert : DataType → ONNXTensorElementDataType) :
    List ModelInput → Status
  | [] => Status.Success
  | io :: rest =>
    let s := CheckAllowedModelInput io input_node_names
    if s.IsOk then
      if convert io.data_type = ONNXTensorElementDataType.UNDEFINED then
        ⟨RequestStatusCode.INTERNAL,
          "unsupported datatype " ++ DataType_Name io.data_type ++
            " for input '" ++ io.name ++ "' for model '" ++ name_ ++ "'"⟩
      else validateInputList name_ input_node_names convert rest
    else s

/-- The per-output loop of `Context::ValidateOutputs` (same shape as the input
loop, with the output-side messages of the source). -/
def validateOutputList (name_ : String) (output_node_names : List String)
    (convert : DataType → ONNXTensorElementDataType) :
    List ModelOutput → Status
  | [] => Status.Success
  | io :: rest =>
    let s := CheckAllowedModelOutput io output_node_names
    if s.IsOk then
      if convert io.data_type = ONNXTensorElementDataType.UNDEFINED then
        ⟨RequestStatusCode.INTERNAL,
          "unsupported datatype " ++ DataType_Name io.data_type ++
            " for output '" ++ io.name ++ "' for model '" ++ name_ ++ "'"⟩
      else validateOutputList name_ output_node_names convert rest
    else s

/-- `Context::ValidateInputs`: query the session's exposed input names, then
validate every declared input.  In the source this is a `Context` method
reading `session_`; the session just created by `CreateExecutionContext` is
passed here explicitly, together with the context's `name_`. -/
def ValidateInputs (name_ : String) (sess : Session)
    (convert : DataType → ONNXTensorElementDataType)
    (ios : List ModelInput) : Status :=
  validateInputList name_ (InputNames sess) convert ios

/-- `Context::ValidateOutputs`: query the session's exposed output names, then
validate every declared output. -/
def ValidateOutputs (name_ : String) (sess : Session)
    (convert : DataType → ONNXTensorElementDataType)
    (ios : List ModelOutput) : Status :=
  validateOutputList name_ (OutputNames sess) convert ios

/-- The compute-capability lookup of `CreateExecutionContext`: the capability
string is looked up in `cc_model_filenames()`, falling back to
`default_model_filename()` when no entry matches. -/
def ccModelFilename (cfg : ModelConfig) (cc : String) : String :=
  match cfg.cc_model_filenames.lookup cc with
  | none => cfg.default_model_filename
  | some f => f

/-- The model-filename selection of `CreateExecutionContext`: a CPU instance
(`NO_GPU_DEVICE`) always uses the default model filename; a GPU instance
queries the device's compute capability (failing with the source's INTERNAL
status when the CUDA query fails), builds the string "major.minor", and uses
the capability lookup with default fallback. -/
def chosenFilename (cfg : ModelConfig) (env : OrtEnv) (modelName : String)
    (gpu_device : Int) : Except Status String :=
  if gpu_device = OnnxBackend.Context.NO_GPU_DEVICE then
    Except.ok cfg.default_model_filename
  else
    match env.deviceProps gpu_device with
    | Except.error e =>
      Except.error
        ⟨RequestStatusCode.INTERNAL,
          "unable to get CUDA device properties for " ++ modelName ++ ": " ++ e⟩
    | Except.ok mm =>
      Except.ok (ccModelFilename cfg (toString mm.1 ++ "." ++ toString mm.2))

/-- The effective max batch size of a new context: a configured value of 0 — and,
by the `<= 0` comparison, any negative value — becomes `NO_BATCHING`; a positive
value is taken as-is (onnx_backend.cc lines 176-177). -/
def effectiveMaxBatch (configured : Int) : Int :=
  if configured ≤ 0 then OnnxBackend.Context.NO_BATCHING else configured

/-- `OnnxBackend::CreateExecutionContext`: choose the model filename for the
device, look it up among the available artifact paths (failing, with no context
added, when absent), construct the context — which is appended to `contexts_`
before the session is created, so it stays in the list even when a later step
fails — then create the session (prepending the CUDA provider for GPU
instances), validate the declared inputs and outputs against the session, and
create the allocator info.  Returns (status, backend, events). -/
def OnnxBackend.CreateExecutionContext (b : OnnxBackend) (env : OrtEnv)
    (convert : DataType → ONNXTensorElementDataType)
    (instance_name : String) (gpu_device : Int)
    (paths : List (String × String)) : Status × OnnxBackend × List Event :=
  match chosenFilename b.config env b.name gpu_device with
  | Except.error s => (s, b, [])
  | Except.ok cc_model_filename =>
    match paths.lookup cc_model_filename with
    | none =>
      (⟨RequestStatusCode.INTERNAL,
         "unable to find model '" ++ cc_model_filename ++ "' for " ++ b.name⟩,
        b, [])
    | some path =>
      let mbs := effectiveMaxBatch b.config.max_batch_size
      let ctx0 : OnnxBackend.Context :=
        { name := instance_name, gpu_device := gpu_device,
          max_batch_size := mbs, session := none,
          input_tensors := [], output_tensors := [] }
      match
        (if gpu_device ≠ OnnxBackend.Context.NO_GPU_DEVICE then
          env.appendCudaProvider gpu_device
        else none) with
      | some e => (ortError e.1 e.2, { b with contexts := b.contexts ++ [ctx0] }, [])
      | none =>
        match env.createSession path with
        | Except.error e =>
          (ortError e.1 e.2, { b with contexts := b.contexts ++ [ctx0] }, [])
        | Except.ok sess =>
          let ctx1 := { ctx0 with session := some sess }
          let b1 := { b with contexts := b.contexts ++ [ctx1] }
          let sv := ValidateInputs instance_name sess convert b.config.input
          if sv.IsOk then
            let so := ValidateOutputs instance_name sess convert b.config.output
            if so.IsOk then
              match env.createCpuAllocatorInfo with
              | some e =>
                (ortError e.1 e.2, b1, [Event.validateIns, Event.validateOuts])
              | none =>
                (Status.Success, b1, [Event.validateIns, Event.validateOuts])
            else (so, b1, [Event.validateIns, Event.validateOuts])
          else (sv, b1, [Event.validateIns])

/-- Events that can occur inside `Context::Run` (fan-in attempts, the single
runtime invocation, output distribution) — as opposed to the dispatcher-level
release/callback events and the creation-time validation events. -/
def Event.isRunPhase : Event → Bool
  | Event.setInput _ => true
  | Event.ortRun => true
  | Event.readOutputs => true
  | _ => false

/-- Completion-callback events. -/
def Event.isCallback : Event → Bool
  | Event.callback _ => true
  | _ => false

/-- Number of completion-callback invocations recorded in a trace. -/
def countCallbacks (tr : List Event) : Nat := (tr.filter Event.isCallback).length

theorem collectBatch_ok (name : String) (ps : List Payload) (total : Nat)
    (rep : Option RequestProvider) (h : ∀ p ∈ ps, p.status.IsOk = true) :
    collectBatch name ps total rep = Except.ok (total + sumBatch ps, repOf ps rep) := by
  induction ps generalizing total rep with
  | nil => simp [collectBatch, sumBatch, repOf]
  | cons p rest ih =>
    have hp : p.status.IsOk = true := h p (List.mem_cons_self p rest)
    have hrest : ∀ q ∈ rest, q.status.IsOk = true := fun q hq => h q (List.mem_cons_of_mem p hq)
    simp only [collectBatch, hp, if_true, sumBatch, repOf]
    rw [ih _ _ hrest]
    ring_nf

theorem collectBatch_error (name : String) (ps : List Payload) (total : Nat)
    (rep : Option RequestProvider) (h : ∃ p ∈ ps, p.status.IsOk = false) :
    collectBatch name ps total rep =
      Except.error
        ⟨RequestStatusCode.INTERNAL,
          "unexpected payload with non-OK status given to runner for '" ++ name ++ "'"⟩ := by
  induction ps generalizing total rep with
  | nil => simp at h
  | cons p rest ih =>
    by_cases hp : p.status.IsOk = true
    · have hrest : ∃ q ∈ rest, q.status.IsOk = false := by
        rcases h with ⟨q, hq, hqs⟩
        rcases List.mem_cons.mp hq with rfl | hq'
        · rw [hp] at hqs; cases hqs
        · exact ⟨q, hq', hqs⟩
      simp only [collectBatch, hp, if_true]
      exact ih _ _ hrest
    · simp only [collectBatch, Bool.not_eq_true] at hp ⊢
      simp [hp]

theorem repOf_isSome (ps : List Payload) (rep : Option RequestProvider)
    (h : ps ≠ []) : ∃ r, repOf ps rep = some r := by
  induction ps generalizing rep with
  | nil => exact absurd rfl h
  | cons p rest ih =>
    cases rest with
    | nil => exact ⟨p.requestProvider, rfl⟩
    | cons q rest' => exact ih (some p.requestProvider) (by simp)

theorem repOf_eq_none (ps : List Payload)
    (h : repOf ps none = none) : ps = [] := by
  cases ps with
  | nil => rfl
  | cons p rest =>
    rcases repOf_isSome (p :: rest) none (by simp) with ⟨r, hr⟩
    rw [hr] at h
    cases h

theorem sumBatch_nil_of_empty : sumBatch [] = 0 := rfl

theorem fanIn_trace (ctx : OnnxBackend.Context) (cfg : ModelConfig) (total : Nat)
    (payloads : List Payload) (l : List InputInfo) :
    ∀ e ∈ (fanIn ctx cfg total payloads l).2.2.2, ∃ n, e = Event.setInput n := by
  cases l with
  | nil => simp [fanIn]
  | cons i rest =>
    cases h : GetInput cfg i.name with
    | none => simp [fanIn, h]
    | some ic =>
      intro e he
      simp [fanIn, h, OnnxBackend.Context.SetInputTensor, Status.IsOk] at he
      exact ⟨i.name, he⟩

theorem fanInOverrides_trace (ctx : OnnxBackend.Context) (total : Nat)
    (payloads : List Payload) (l : List (String × InputOverride)) :
    ∀ e ∈ (fanInOverrides ctx total payloads l).2.2.2, ∃ n, e = Event.setInput n := by
  cases l with
  | nil => simp [fanInOverrides]
  | cons pr rest =>
    intro e he
    simp [fanInOverrides, OnnxBackend.Context.SetInputTensor, Status.IsOk] at he
    exact ⟨pr.1, he⟩

theorem runBody_trace (ctx : OnnxBackend.Context) (cfg : ModelConfig) (ort : Ort)
    (rep : RequestProvider) (total : Nat) (payloads : List Payload) :
    ∀ e ∈ (OnnxBackend.Context.RunBody ctx cfg ort rep total payloads).2.2.2,
      e.isRunPhase = true := by
  intro e he
  have hset : ∀ n, (Event.setInput n).isRunPhase = true := fun _ => rfl
  simp only [OnnxBackend.Context.RunBody] at he
  rcases h1 : fanIn ctx cfg total payloads rep.requestHeader.input with ⟨s1, r1⟩
  rw [h1] at he
  have htr1 : ∀ x ∈ r1.2.2, ∃ n, x = Event.setInput n := by
    intro x hx
    have := fanIn_trace ctx cfg total payloads rep.requestHeader.input x
    rw [h1] at this
    exact this hx
  by_cases hs1 : s1.IsOk = true
  · rw [if_pos hs1] at he
    rcases hov : rep.inputOverride with _ | ovs
    · rw [hov] at he
      simp only at he
      rw [if_pos (show Status.Success.IsOk = true from rfl)] at he
      rcases h3 : ort.run (r1.2.1 ++ []) _ (cfg.output.map ModelOutput.name) with e3 | outs
      · rw [h3] at he
        simp only [List.append_nil, List.mem_append, List.mem_singleton] at he
        rcases he with hx | rfl
        · rcases htr1 _ hx with ⟨n, rfl⟩; exact hset n
        · rfl
      · rw [h3] at he
        simp only [OnnxBackend.Context.ReadOutputTensors, List.append_nil,
          List.mem_append, List.mem_singleton] at he
        rcases he with (hx | rfl) | rfl
        · rcases htr1 _ hx with ⟨n, rfl⟩; exact hset n
        · rfl
        · rfl
    · rw [hov] at he
      simp only at he
      rcases h2 : fanInOverrides r1.1 total payloads ovs with ⟨s2, r2⟩
      rw [h2] at he
      have htr2 : ∀ x ∈ r2.2.2, ∃ n, x = Event.setInput n := by
        intro x hx
        have := fanInOverrides_trace r1.1 total payloads ovs x
        rw [h2] at this
        exact this hx
      by_cases hs2 : s2.IsOk = true
      · rw [if_pos hs2] at he
        rcases h3 : ort.run (r1.2.1 ++ r2.2.1) _ (cfg.output.map ModelOutput.name) with e3 | outs
        · rw [h3] at he
          simp only [List.mem_append, List.mem_singleton] at he
          rcases he with (hx | hx) | rfl
          · rcases htr1 _ hx with ⟨n, rfl⟩; exact hset n
          · rcases htr2 _ hx with ⟨n, rfl⟩; exact hset n
          · rfl
        · rw [h3] at he
          simp only [OnnxBackend.Context.ReadOutputTensors, List.mem_append,
            List.mem_singleton] at he
          rcases he with ((hx | hx) | rfl) | rfl
          · rcases htr1 _ hx with ⟨n, rfl⟩; exact hset n
          · rcases htr2 _ hx with ⟨n, rfl⟩; exact hset n
          · rfl
          · rfl
      · rw [if_neg hs2] at he
        simp only [List.mem_append] at he
        rcases he with hx | hx
        · rcases htr1 _ hx with ⟨n, rfl⟩; exact hset n
        · rcases htr2 _ hx with ⟨n, rfl⟩; exact hset n
  · rw [if_neg hs1] at he
    rcases htr1 _ he with ⟨n, rfl⟩
    exact hset n

theorem contextRun_trace (ctx : OnnxBackend.Context) (cfg : ModelConfig)
    (ort : Ort) (payloads : List Payload) :
    ∀ e ∈ (OnnxBackend.Context.Run ctx cfg ort payloads).2.2.2,
      e.isRunPhase = true := by
  intro e he
  simp only [OnnxBackend.Context.Run] at he
  rcases hc : collectBatch ctx.name payloads 0 none with s | tr
  · rw [hc] at he; simp at he
  · rw [hc] at he
    simp only at he
    by_cases h0 : tr.1 = 0
    · simp [h0] at he
    · simp only [h0, if_false] at he
      by_cases hrej : batchSizeRejected tr.1 ctx.max_batch_size
      · simp [hrej] at he
      · simp only [hrej, if_false] at he
        rcases hrep : tr.2 with _ | r
        · rw [hrep] at he; simp at he
        · rw [hrep] at he
          exact runBody_trace ctx cfg ort r tr.1 payloads e he

theorem contextRun_nonOK (ctx : OnnxBackend.Context) (cfg : ModelConfig)
    (ort : Ort) (payloads : List Payload)
    (h : ∃ p ∈ payloads, p.status.IsOk = false) :
    OnnxBackend.Context.Run ctx cfg ort payloads =
      (⟨RequestStatusCode.INTERNAL,
         "unexpected payload with non-OK status given to runner for '" ++ ctx.name ++ "'"⟩,
        ctx, payloads, []) := by
  unfold OnnxBackend.Context.Run
  rw [collectBatch_error ctx.name payloads 0 none h]

theorem contextRun_zero (ctx : OnnxBackend.Context) (cfg : ModelConfig)
    (ort : Ort) (payloads : List Payload)
    (hok : ∀ p ∈ payloads, p.status.IsOk = true)
    (hz : sumBatch payloads = 0) :
    OnnxBackend.Context.Run ctx cfg ort payloads =
      (Status.Success, ctx, payloads, []) := by
  unfold OnnxBackend.Context.Run
  rw [collectBatch_ok ctx.name payloads 0 none hok]
  simp [hz]

theorem contextRun_rejected (ctx : OnnxBackend.Context) (cfg : ModelConfig)
    (ort : Ort) (payloads : List Payload)
    (hok : ∀ p ∈ payloads, p.status.IsOk = true)
    (hnz : sumBatch payloads ≠ 0)
    (hrej : batchSizeRejected (sumBatch payloads) ctx.max_batch_size = true) :
    OnnxBackend.Context.Run ctx cfg ort payloads =
      (⟨RequestStatusCode.INTERNAL,
         "dynamic batch size " ++ toString (sumBatch payloads) ++ " for '" ++
           ctx.name ++ "', max allowed is " ++ toString ctx.max_batch_size⟩,
        ctx, payloads, []) := by
  unfold OnnxBackend.Context.Run
  rw [collectBatch_ok ctx.name payloads 0 none hok]
  simp [hnz, hrej]

theorem contextRun_pass (ctx : OnnxBackend.Context) (cfg : ModelConfig)
    (ort : Ort) (payloads : List Payload) (r : RequestProvider)
    (hok : ∀ p ∈ payloads, p.status.IsOk = true)
    (hnz : sumBatch payloads ≠ 0)
    (hrej : batchSizeRejected (sumBatch payloads) ctx.max_batch_size = false)
    (hrep : repOf payloads none = some r) :
    OnnxBackend.Context.Run ctx cfg ort payloads =
      OnnxBackend.Context.RunBody ctx cfg ort r (sumBatch payloads) payloads := by
  unfold OnnxBackend.Context.Run
  rw [collectBatch_ok ctx.name payloads 0 none hok]
  simp [hnz, hrej, hrep]

theorem dispatch_in_range (b : OnnxBackend) (ort : Ort) (runner_idx : Nat)
    (payloads : List Payload) (ctx : OnnxBackend.Context)
    (hidx : b.contexts[runner_idx]? = some ctx) :
    OnnxBackend.Run b ort runner_idx payloads =
      ({ b with
          contexts :=
            b.contexts.set runner_idx
              (OnnxBackend.Context.Run ctx b.config ort payloads).2.1.ReleaseOrtRunResources },
        (OnnxBackend.Context.Run ctx b.config ort payloads).2.2.1,
        (OnnxBackend.Context.Run ctx b.config ort payloads).2.2.2 ++
          [Event.release,
            Event.callback (OnnxBackend.Context.Run ctx b.config ort payloads).1]) := by
  unfold OnnxBackend.Run
  rw [hidx]

theorem dispatch_out_of_range (b : OnnxBackend) (ort : Ort) (runner_idx : Nat)
    (payloads : List Payload)
    (hidx : b.contexts.length ≤ runner_idx) :
    OnnxBackend.Run b ort runner_idx payloads =
      (b, payloads,
        [Event.callback
          ⟨RequestStatusCode.INTERNAL,
            "unexpected runner index" ++ toString runner_idx ++ ", max allowed " ++
              toString b.contexts.length⟩]) := by
  unfold OnnxBackend.Run
  rw [List.getElem?_eq_none hidx]

theorem isRunPhase_not_callback (e : Event) (h : e.isRunPhase = true) :
    e.isCallback = false := by
  cases e <;> first | rfl | cases h

theorem isRunPhase_not_release (e : Event) (h : e.isRunPhase = true) :
    e ≠ Event.release := by
  cases e <;> first | exact fun hc => Event.noConfusion hc | cases h

/-- Sample configuration: one float input "x" of shape [2], one output "y",
max batch size 4 (the spec's §8 concrete scenario). -/
def cfgSample : ModelConfig :=
  { max_batch_size := 4
    default_model_filename := "model.onnx"
    cc_model_filenames := []
    input := [⟨"x", DataType.TYPE_FP32, [2]⟩]
    output := [⟨"y", DataType.TYPE_FP32, [2]⟩] }

/-- A CPU context for `cfgSample` with max batch size 4. -/
def ctxSample : OnnxBackend.Context :=
  { name := "sample_0_cpu", gpu_device := OnnxBackend.Context.NO_GPU_DEVICE,
    max_batch_size := 4, session := none,
    input_tensors := [], output_tensors := [] }

/-- An identity-like pass-through runtime stub: it returns its input tensor
handles as the outputs and never fails. -/
def ortIdentity : Ort := ⟨fun _ ins _ => Except.ok ins⟩

/-- An all-OK payload with the given batch size and the single input "x". -/
def payX (b : Nat) : Payload :=
  { status := Status.Success
    requestProvider :=
      { requestHeader := { batch_size := b, input := [⟨"x", [2]⟩] }
        inputOverride := none } }

/-- A backend holding `cfgSample` and the single context `ctxSample`. -/
def backendSample : OnnxBackend :=
  { name := "sample", config := cfgSample, contexts := [ctxSample] }

/-- C5: every invocation of the dispatcher `OnnxBackend::Run` — whether the
runner index is out of range or the context's `Run` succeeds or fails for any
reason — invokes the completion callback exactly once. -/
theorem C5_callback_exactly_once (b : OnnxBackend) (ort : Ort)
    (runner_idx : Nat) (payloads : List Payload) :
    countCallbacks (OnnxBackend.Run b ort runner_idx payloads).2.2 = 1 := by
  rcases hidx : b.contexts[runner_idx]? with _ | ctx
  · rw [dispatch_out_of_range b ort runner_idx payloads
      (by rwa [← List.getElem?_eq_none_iff])]
    rfl
  · rw [dispatch_in_range b ort runner_idx payloads ctx hidx]
    unfold countCallbacks
    rw [List.filter_append]
    have hnil :
        (OnnxBackend.Context.Run ctx b.config ort payloads).2.2.2.filter
          Event.isCallback = [] := by
      refine List.filter_eq_nil_iff.mpr (fun e he => ?_)
      rw [isRunPhase_not_callback e (contextRun_trace ctx b.config ort payloads e he)]
      simp
    rw [hnil]
    rfl

/-- C5 witness: a dispatcher invocation on the sample backend (in-range index)
and one on an out-of-range index each record exactly one callback. -/
theorem C5_callback_exactly_once_witness :
    countCallbacks (OnnxBackend.Run backendSample ortIdentity 0 [payX 1]).2.2 = 1 ∧
    countCallbacks (OnnxBackend.Run backendSample ortIdentity 7 [payX 1]).2.2 = 1 :=
  ⟨C5_callback_exactly_once backendSample ortIdentity 0 [payX 1],
    C5_callback_exactly_once backendSample ortIdentity 7 [payX 1]⟩

/-- C1: for every dispatcher `Run` on a valid runner index, the transient
input/output tensor containers of that runner's context are released — cleared
by `ReleaseOrtRunResources` — before the completion callback is invoked: the
trace ends with the release event immediately followed by the single callback
(no release or callback occurs earlier), and the resulting context's
`input_tensors_` and `output_tensors_` are both empty, on the success path and
on every failure path alike. -/
theorem C1_release_before_callback (b : OnnxBackend) (ort : Ort)
    (runner_idx : Nat) (payloads : List Payload)
    (h : runner_idx < b.contexts.length) :
    ∃ s tr c,
      (OnnxBackend.Run b ort runner_idx payloads).2.2 =
        tr ++ [Event.release, Event.callback s] ∧
      (∀ e ∈ tr, e ≠ Event.release ∧ e.isCallback = false) ∧
      (OnnxBackend.Run b ort runner_idx payloads).1.contexts[runner_idx]? = some c ∧
      c.input_tensors = [] ∧ c.output_tensors = [] := by
  have hidx : b.contexts[runner_idx]? = some b.contexts[runner_idx] :=
    List.getElem?_eq_getElem h
  rw [dispatch_in_range b ort runner_idx payloads _ hidx]
  refine ⟨(OnnxBackend.Context.Run b.contexts[runner_idx] b.config ort payloads).1,
    (OnnxBackend.Context.Run b.contexts[runner_idx] b.config ort payloads).2.2.2,
    (OnnxBackend.Context.Run b.contexts[runner_idx] b.config ort payloads).2.1.ReleaseOrtRunResources,
    rfl, ?_, ?_, rfl, rfl⟩
  · intro e he
    have hrp := contextRun_trace b.contexts[runner_idx] b.config ort payloads e he
    exact ⟨isRunPhase_not_release e hrp, isRunPhase_not_callback e hrp⟩
  · exact List.getElem?_set_self (by simpa using h)

/-- C1 witness: on the sample backend with runner index 0, the release event
precedes the callback and the context's transient containers end empty. -/
theorem C1_release_before_callback_witness :
    0 < backendSample.contexts.length ∧
    (∃ s tr c,
      (OnnxBackend.Run backendSample ortIdentity 0 [payX 1]).2.2 =
        tr ++ [Event.release, Event.callback s] ∧
      (∀ e ∈ tr, e ≠ Event.release ∧ e.isCallback = false) ∧
      (OnnxBackend.Run backendSample ortIdentity 0 [payX 1]).1.contexts[0]? = some c ∧
      c.input_tensors = [] ∧ c.output_tensors = []) :=
  ⟨by decide,
    C1_release_before_callback backendSample ortIdentity 0 [payX 1] (by decide)⟩

/-- C6: a Group containing at least one payload whose status is not OK makes
`Context::Run` return the internal precondition-violation error with the
context state and payloads untouched and an empty event trace — no fan-in
assembly and no runtime invocation occur. -/
theorem C6_nonOK_payload_internal_error (ctx : OnnxBackend.Context)
    (cfg : ModelConfig) (ort : Ort) (payloads : List Payload)
    (h : ∃ p ∈ payloads, p.status.IsOk = false) :
    OnnxBackend.Context.Run ctx cfg ort payloads =
      (⟨RequestStatusCode.INTERNAL,
         "unexpected payload with non-OK status given to runner for '" ++
           ctx.name ++ "'"⟩,
        ctx, payloads, []) :=
  contextRun_nonOK ctx cfg ort payloads h

/-- C6 witness: a group whose second payload already carries an error status is
rejected with the internal error, leaving state, payloads and trace untouched. -/
theorem C6_nonOK_payload_internal_error_witness :
    (∃ p ∈ [payX 1,
            { payX 2 with status := ⟨RequestStatusCode.INTERNAL, "boom"⟩ }],
        p.status.IsOk = false) ∧
    OnnxBackend.Context.Run ctxSample cfgSample ortIdentity
        [payX 1, { payX 2 with status := ⟨RequestStatusCode.INTERNAL, "boom"⟩ }] =
      (⟨RequestStatusCode.INTERNAL,
         "unexpected payload with non-OK status given to runner for '" ++
           ctxSample.name ++ "'"⟩,
        ctxSample,
        [payX 1, { payX 2 with status := ⟨RequestStatusCode.INTERNAL, "boom"⟩ }],
        []) :=
  ⟨by decide,
    C6_nonOK_payload_internal_error ctxSample cfgSample ortIdentity _ (by decide)⟩

/-- C7: a Group of all-OK payloads whose total batch size is zero makes
`Context::Run` return success with the context state and payloads untouched and
an empty event trace — no fan-in assembly, no runtime invocation, no output
written. -/
theorem C7_zero_total_noop_success (ctx : OnnxBackend.Context)
    (cfg : ModelConfig) (ort : Ort) (payloads : List Payload)
    (hok : ∀ p ∈ payloads, p.status.IsOk = true)
    (hz : sumBatch payloads = 0) :
    OnnxBackend.Context.Run ctx cfg ort payloads =
      (Status.Success, ctx, payloads, []) :=
  contextRun_zero ctx cfg ort payloads hok hz

/-- C7 witness: a group of one OK payload of batch size zero is a no-op
success. -/
theorem C7_zero_total_noop_success_witness :
    (∀ p ∈ [payX 0], p.status.IsOk = true) ∧ sumBatch [payX 0] = 0 ∧
    OnnxBackend.Context.Run ctxSample cfgSample ortIdentity [payX 0] =
      (Status.Success, ctxSample, [payX 0], []) :=
  ⟨by decide, by decide,
    C7_zero_total_noop_success ctxSample cfgSample ortIdentity [payX 0]
      (by decide) (by decide)⟩

theorem batchSizeRejected_iff (total : Nat) (m : Int) (h0 : 0 ≤ m)
    (h64 : m < 2 ^ 64) :
    batchSizeRejected total m = true ↔ (total ≠ 1 ∧ (total : Int) > m) := by
  unfold batchSizeRejected sizeTCast
  rw [Int.emod_eq_of_lt h0 h64]
  simp only [Bool.and_eq_true, bne_iff_ne, ne_eq, decide_eq_true_eq, gt_iff_lt]
  omega

/-- C2: for a Group of all-OK payloads with total batch size `total` (the sum
of the payloads' batch sizes) handed to `Context::Run` of a context whose
`max_batch_size_` is a created (nonnegative, int-ranged) value: if `total` is
not 1 and exceeds `max_batch_size_`, `Run` returns the dynamic-batch-size
error with an empty event trace — before any fan-in assembly or runtime
invocation; otherwise the batch-size check passes (`batchSizeRejected` is
false, and with a nonzero total `Run` proceeds to the post-check body); in
particular a total of exactly 1 passes the check for every `max_batch_size_`
value, including 0 (non-batching). -/
theorem C2_batch_size_check (ctx : OnnxBackend.Context) (cfg : ModelConfig)
    (ort : Ort) (payloads : List Payload)
    (hok : ∀ p ∈ payloads, p.status.IsOk = true)
    (h0 : 0 ≤ ctx.max_batch_size) (h64 : ctx.max_batch_size < 2 ^ 64) :
    ((sumBatch payloads ≠ 1 ∧ (sumBatch payloads : Int) > ctx.max_batch_size) →
        OnnxBackend.Context.Run ctx cfg ort payloads =
          (⟨RequestStatusCode.INTERNAL,
             "dynamic batch size " ++ toString (sumBatch payloads) ++ " for '" ++
               ctx.name ++ "', max allowed is " ++ toString ctx.max_batch_size⟩,
            ctx, payloads, [])) ∧
    (¬(sumBatch payloads ≠ 1 ∧ (sumBatch payloads : Int) > ctx.max_batch_size) →
        batchSizeRejected (sumBatch payloads) ctx.max_batch_size = false) ∧
    (∀ r, ¬(sumBatch payloads ≠ 1 ∧ (sumBatch payloads : Int) > ctx.max_batch_size) →
        sumBatch payloads ≠ 0 → repOf payloads none = some r →
        OnnxBackend.Context.Run ctx cfg ort payloads =
          OnnxBackend.Context.RunBody ctx cfg ort r (sumBatch payloads) payloads) ∧
    (∀ m : Int, batchSizeRejected 1 m = false) := by
  refine ⟨?_, ?_, ?_, ?_⟩
  · intro hrej
    have hnz : sumBatch payloads ≠ 0 := by omega
    exact contextRun_rejected ctx cfg ort payloads hok hnz
      ((batchSizeRejected_iff _ _ h0 h64).mpr hrej)
  · intro hpass
    rcases hb : batchSizeRejected (sumBatch payloads) ctx.max_batch_size with _ | _
    · rfl
    · exact absurd ((batchSizeRejected_iff _ _ h0 h64).mp hb) hpass
  · intro r hpass hnz hrep
    have hb : batchSizeRejected (sumBatch payloads) ctx.max_batch_size = false := by
      rcases hb : batchSizeRejected (sumBatch payloads) ctx.max_batch_size with _ | _
      · rfl
      · exact absurd ((batchSizeRejected_iff _ _ h0 h64).mp hb) hpass
    exact contextRun_pass ctx cfg ort payloads r hok hnz hb hrep
  · intro m
    unfold batchSizeRejected
    simp

/-- C2 witness: on the sample context (max batch size 4) a group of total batch
size 5 is rejected with the dynamic-batch-size error and an empty trace, and a
total of exactly 1 passes the check even for `max_batch_size_` 0. -/
theorem C2_batch_size_check_witness :
    OnnxBackend.Context.Run ctxSample cfgSample ortIdentity [payX 5] =
      (⟨RequestStatusCode.INTERNAL,
         "dynamic batch size " ++ toString (sumBatch [payX 5]) ++ " for '" ++
           ctxSample.name ++ "', max allowed is " ++ toString ctxSample.max_batch_size⟩,
        ctxSample, [payX 5], []) ∧
    batchSizeRejected 1 0 = false :=
  ⟨(C2_batch_size_check ctxSample cfgSample ortIdentity [payX 5]
      (by decide) (by decide) (by decide)).1 (by decide),
    (C2_batch_size_check ctxSample cfgSample ortIdentity [payX 5]
      (by decide) (by decide) (by decide)).2.2.2 0⟩

/-- A context like `ctxSample` but with max batch size 8, so that a group of
five batch-1 payloads passes the batch-size check. -/
def ctxSample8 : OnnxBackend.Context :=
  { ctxSample with max_batch_size := 8 }

/-- C3: the claimed fan-in/fan-out byte round-trip does not hold in this source
snapshot — `SetInputTensor` opens with an unconditional
`return Status(UNSUPPORTED, "SetInputTensor() implemented")`, so for groups of
N = 1, 2 and 5 well-formed equally-shaped payloads under an identity-like
pass-through runtime, `Run` aborts at the first fan-in attempt: the runtime is
never invoked (no `ortRun` event), nothing is distributed, and every payload is
returned exactly as submitted with no output written. -/
theorem C3_roundtrip_unimplemented :
    OnnxBackend.Context.Run ctxSample cfgSample ortIdentity [payX 1] =
      (⟨RequestStatusCode.UNSUPPORTED, "SetInputTensor() implemented"⟩,
        ctxSample, [payX 1], [Event.setInput "x"]) ∧
    OnnxBackend.Context.Run ctxSample cfgSample ortIdentity [payX 1, payX 1] =
      (⟨RequestStatusCode.UNSUPPORTED, "SetInputTensor() implemented"⟩,
        ctxSample, [payX 1, payX 1], [Event.setInput "x"]) ∧
    OnnxBackend.Context.Run ctxSample8 cfgSample ortIdentity
        [payX 1, payX 1, payX 1, payX 1, payX 1] =
      (⟨RequestStatusCode.UNSUPPORTED, "SetInputTensor() implemented"⟩,
        ctxSample8, [payX 1, payX 1, payX 1, payX 1, payX 1],
        [Event.setInput "x"]) := by
  refine ⟨by decide, by decide, by decide⟩

/-- C4: no size-mismatch check exists in this source snapshot — `SetInputTensor`
never reads any payload's byte size, so a group whose second payload would have
a mismatched byte size is aborted with the constant UNSUPPORTED stub status
(whose message identifies neither the offending request nor expected/actual
byte counts), the runtime is never invoked, and no payload output is written
(context and payloads are returned unchanged). -/
theorem C4_no_size_mismatch_error :
    OnnxBackend.Context.Run ctxSample cfgSample ortIdentity [payX 1, payX 2] =
      (⟨RequestStatusCode.UNSUPPORTED, "SetInputTensor() implemented"⟩,
        ctxSample, [payX 1, payX 2], [Event.setInput "x"]) := by decide

theorem validateInputList_ok (n : String) (names : List String)
    (convert : DataType → ONNXTensorElementDataType) (ios : List ModelInput)
    (h : ∀ io ∈ ios, names.contains io.name = true ∧
      convert io.data_type ≠ ONNXTensorElementDataType.UNDEFINED) :
    validateInputList n names convert ios = Status.Success := by
  induction ios with
  | nil => rfl
  | cons io rest ih =>
    rcases h io (List.mem_cons_self io rest) with ⟨hc, hd⟩
    simp only [validateInputList, CheckAllowedModelInput, hc, if_true]
    rw [if_pos (show Status.Success.IsOk = true from rfl), if_neg hd]
    exact ih (fun j hj => h j (List.mem_cons_of_mem io hj))

theorem validateInputList_offender (n : String) (names : List String)
    (convert : DataType → ONNXTensorElementDataType)
    (ios1 : List ModelInput) (io : ModelInput) (ios2 : List ModelInput)
    (hpre : ∀ j ∈ ios1, names.contains j.name = true ∧
      convert j.data_type ≠ ONNXTensorElementDataType.UNDEFINED)
    (hbad : names.contains io.name = false ∨
      convert io.data_type = ONNXTensorElementDataType.UNDEFINED) :
    (validateInputList n names convert (ios1 ++ io :: ios2)).IsOk = false ∧
    ∃ pre post,
      (validateInputList n names convert (ios1 ++ io :: ios2)).msg =
        pre ++ io.name ++ post := by
  induction ios1 with
  | nil =>
    rcases hbad with hc | hd
    · simp only [List.nil_append, validateInputList, CheckAllowedModelInput, hc,
        Bool.false_eq_true, if_false]
      exact ⟨rfl, "unexpected inference input '", "'", rfl⟩
    · rcases hc : names.contains io.name with _ | _
      · simp only [List.nil_append, validateInputList, CheckAllowedModelInput, hc,
          Bool.false_eq_true, if_false]
        exact ⟨rfl, "unexpected inference input '", "'", rfl⟩
      · simp only [List.nil_append, validateInputList, CheckAllowedModelInput, hc,
          if_true]
        rw [if_pos (show Status.Success.IsOk = true from rfl), if_pos hd]
        refine ⟨rfl, "unsupported datatype " ++ DataType_Name io.data_type ++ " for input '",
          "' for model '" ++ n ++ "'", ?_⟩
        simp [String.append_assoc]
  | cons j rest ih =>
    rcases hpre j (List.mem_cons_self j rest) with ⟨hc, hd⟩
    simp only [List.cons_append, validateInputList, CheckAllowedModelInput, hc, if_true]
    rw [if_pos (show Status.Success.IsOk = true from rfl), if_neg hd]
    exact ih (fun k hk => hpre k (List.mem_cons_of_mem j hk))

theorem validateOutputList_ok (n : String) (names : List String)
    (convert : DataType → ONNXTensorElementDataType) (ios : List ModelOutput)
    (h : ∀ io ∈ ios, names.contains io.name = true ∧
      convert io.data_type ≠ ONNXTensorElementDataType.UNDEFINED) :
    validateOutputList n names convert ios = Status.Success := by
  induction ios with
  | nil => rfl
  | cons io rest ih =>
    rcases h io (List.mem_cons_self io rest) with ⟨hc, hd⟩
    simp only [validateOutputList, CheckAllowedModelOutput, hc, if_true]
    rw [if_pos (show Status.Success.IsOk = true from rfl), if_neg hd]
    exact ih (fun j hj => h j (List.mem_cons_of_mem io hj))

theorem validateOutputList_offender (n : String) (names : List String)
    (convert : DataType → ONNXTensorElementDataType)
    (ios1 : List ModelOutput) (io : ModelOutput) (ios2 : List ModelOutput)
    (hpre : ∀ j ∈ ios1, names.contains j.name = true ∧
      convert j.data_type ≠ ONNXTensorElementDataType.UNDEFINED)
    (hbad : names.contains io.name = false ∨
      convert io.data_type = ONNXTensorElementDataType.UNDEFINED) :
    (validateOutputList n names convert (ios1 ++ io :: ios2)).IsOk = false ∧
    ∃ pre post,
      (validateOutputList n names convert (ios1 ++ io :: ios2)).msg =
        pre ++ io.name ++ post := by
  induction ios1 with
  | nil =>
    rcases hbad with hc | hd
    · simp only [List.nil_append, validateOutputList, CheckAllowedModelOutput, hc,
        Bool.false_eq_true, if_false]
      exact ⟨rfl, "unexpected inference output '", "'", rfl⟩
    · rcases hc : names.contains io.name with _ | _
      · simp only [List.nil_append, validateOutputList, CheckAllowedModelOutput, hc,
          Bool.false_eq_true, if_false]
        exact ⟨rfl, "unexpected inference output '", "'", rfl⟩
      · simp only [List.nil_append, validateOutputList, CheckAllowedModelOutput, hc,
          if_true]
        rw [if_pos (show Status.Success.IsOk = true from rfl), if_pos hd]
        refine ⟨rfl, "unsupported datatype " ++ DataType_Name io.data_type ++ " for output '",
          "' for model '" ++ n ++ "'", ?_⟩
        simp [String.append_assoc]
  | cons j rest ih =>
    rcases hpre j (List.mem_cons_self j rest) with ⟨hc, hd⟩
    simp only [List.cons_append, validateOutputList, CheckAllowedModelOutput, hc, if_true]
    rw [if_pos (show Status.Success.IsOk = true from rfl), if_neg hd]
    exact ih (fun k hk => hpre k (List.mem_cons_of_mem j hk))

theorem chosenFilename_error_not_ok (cfg : ModelConfig) (env : OrtEnv)
    (n : String) (d : Int) (s : Status)
    (h : chosenFilename cfg env n d = Except.error s) : s.IsOk = false := by
  unfold chosenFilename at h
  by_cases hd : d = OnnxBackend.Context.NO_GPU_DEVICE
  · rw [if_pos hd] at h; cases h
  · rw [if_neg hd] at h
    rcases hp : env.deviceProps d with e | mm
    · rw [hp] at h
      cases h
      rfl
    · rw [hp] at h; cases h

theorem ortError_not_ok (code : Nat) (msg : String) :
    (ortError code msg).IsOk = false := rfl

theorem create_status_ok_trace (b : OnnxBackend) (env : OrtEnv)
    (convert : DataType → ONNXTensorElementDataType) (iname : String) (d : Int)
    (paths : List (String × String))
    (h : (OnnxBackend.CreateExecutionContext b env convert iname d paths).1.IsOk = true) :
    (OnnxBackend.CreateExecutionContext b env convert iname d paths).2.2 =
      [Event.validateIns, Event.validateOuts] := by
  rcases hcf : chosenFilename b.config env b.name d with s | f
  · unfold OnnxBackend.CreateExecutionContext at h
    rw [hcf] at h
    simp only [] at h
    rw [chosenFilename_error_not_ok b.config env b.name d s hcf] at h
    cases h
  · rcases hlk : List.lookup f paths with _ | path
    · unfold OnnxBackend.CreateExecutionContext at h
      simp [hcf, hlk, Status.IsOk] at h
    · rcases hac :
          (if d ≠ OnnxBackend.Context.NO_GPU_DEVICE then
            env.appendCudaProvider d
          else none) with _ | e
      · rcases hcs : env.createSession path with e | sess
        · unfold OnnxBackend.CreateExecutionContext at h
          simp [hcf, hlk, hac, hcs, ortError, Status.IsOk] at h
        · by_cases hsv :
              (ValidateInputs iname sess convert b.config.input).IsOk = true
          · by_cases hso :
                (ValidateOutputs iname sess convert b.config.output).IsOk = true
            · unfold OnnxBackend.CreateExecutionContext
              rw [hcf]
              simp only []
              rw [hlk]
              simp only []
              rw [hac]
              simp only []
              rw [hcs]
              simp only []
              rw [if_pos hsv, if_pos hso]
              rcases hai : env.createCpuAllocatorInfo with _ | e
              · rfl
              · rfl
            · unfold OnnxBackend.CreateExecutionContext at h
              rw [hcf] at h
              simp only [] at h
              rw [hlk] at h
              simp only [] at h
              rw [hac] at h
              simp only [] at h
              rw [hcs] at h
              simp only [] at h
              rw [if_pos hsv, if_neg hso] at h
              exact absurd h hso
          · unfold OnnxBackend.CreateExecutionContext at h
            rw [hcf] at h
            simp only [] at h
            rw [hlk] at h
            simp only [] at h
            rw [hac] at h
            simp only [] at h
            rw [hcs] at h
            simp only [] at h
            rw [if_neg hsv] at h
            exact absurd h hsv
      · unfold OnnxBackend.CreateExecutionContext at h
        simp [hcf, hlk, hac, ortError, Status.IsOk] at h

theorem create_appends_context (b : OnnxBackend) (env : OrtEnv)
    (convert : DataType → ONNXTensorElementDataType) (iname : String) (d : Int)
    (paths : List (String × String)) (f path : String)
    (hcf : chosenFilename b.config env b.name d = Except.ok f)
    (hlk : paths.lookup f = some path) :
    ∃ c, (OnnxBackend.CreateExecutionContext b env convert iname d paths).2.1.contexts =
        b.contexts ++ [c] ∧
      c.max_batch_size = effectiveMaxBatch b.config.max_batch_size ∧
      c.name = iname ∧ c.gpu_device = d := by
  rcases hac :
      (if d ≠ OnnxBackend.Context.NO_GPU_DEVICE then
        env.appendCudaProvider d
      else none) with _ | e
  · rcases hcs : env.createSession path with e | sess
    · unfold OnnxBackend.CreateExecutionContext
      rw [hcf]
      simp only []
      rw [hlk]
      simp only []
      rw [hac]
      simp only []
      rw [hcs]
      exact ⟨_, rfl, rfl, rfl, rfl⟩
    · by_cases hsv : (ValidateInputs iname sess convert b.config.input).IsOk = true
      · by_cases hso : (ValidateOutputs iname sess convert b.config.output).IsOk = true
        · rcases hai : env.createCpuAllocatorInfo with _ | e
          all_goals
            unfold OnnxBackend.CreateExecutionContext
          all_goals
            rw [hcf]
          all_goals
            simp only []
          all_goals
            rw [hlk]
          all_goals
            simp only []
          all_goals
            rw [hac]
          all_goals
            simp only []
          all_goals
            rw [hcs]
          all_goals
            simp only []
          all_goals
            rw [if_pos hsv, if_pos hso, hai]
          all_goals
            exact ⟨_, rfl, rfl, rfl, rfl⟩
        · unfold OnnxBackend.CreateExecutionContext
          rw [hcf]
          simp only []
          rw [hlk]
          simp only []
          rw [hac]
          simp only []
          rw [hcs]
          simp only []
          rw [if_pos hsv, if_neg hso]
          exact ⟨_, rfl, rfl, rfl, rfl⟩
      · unfold OnnxBackend.CreateExecutionContext
        rw [hcf]
        simp only []
        rw [hlk]
        simp only []
        rw [hac]
        simp only []
        rw [hcs]
        simp only []
        rw [if_neg hsv]
        exact ⟨_, rfl, rfl, rfl, rfl⟩
  · unfold OnnxBackend.CreateExecutionContext
    rw [hcf]
    simp only []
    rw [hlk]
    simp only []
    rw [hac]
    exact ⟨_, rfl, rfl, rfl, rfl⟩

theorem create_input_validation_fail (b : OnnxBackend) (env : OrtEnv)
    (convert : DataType → ONNXTensorElementDataType) (iname : String)
    (paths : List (String × String)) (path : String) (sess : Session)
    (hlk : paths.lookup b.config.default_model_filename = some path)
    (hcs : env.createSession path = Except.ok sess)
    (hsv : (ValidateInputs iname sess convert b.config.input).IsOk = false) :
    (OnnxBackend.CreateExecutionContext b env convert iname
        OnnxBackend.Context.NO_GPU_DEVICE paths).1 =
      ValidateInputs iname sess convert b.config.input ∧
    (OnnxBackend.CreateExecutionContext b env convert iname
        OnnxBackend.Context.NO_GPU_DEVICE paths).2.2 = [Event.validateIns] := by
  unfold OnnxBackend.CreateExecutionContext chosenFilename
  rw [if_pos rfl]
  simp only
  rw [hlk]
  simp only
  rw [if_neg (by simp), hcs]
  simp only
  rw [if_neg (by rw [hsv]; exact Bool.false_ne_true)]
  exact ⟨rfl, rfl⟩

theorem create_output_validation_fail (b : OnnxBackend) (env : OrtEnv)
    (convert : DataType → ONNXTensorElementDataType) (iname : String)
    (paths : List (String × String)) (path : String) (sess : Session)
    (hlk : paths.lookup b.config.default_model_filename = some path)
    (hcs : env.createSession path = Except.ok sess)
    (hsv : (ValidateInputs iname sess convert b.config.input).IsOk = true)
    (hso : (ValidateOutputs iname sess convert b.config.output).IsOk = false) :
    (OnnxBackend.CreateExecutionContext b env convert iname
        OnnxBackend.Context.NO_GPU_DEVICE paths).1 =
      ValidateOutputs iname sess convert b.config.output ∧
    (OnnxBackend.CreateExecutionContext b env convert iname
        OnnxBackend.Context.NO_GPU_DEVICE paths).2.2 =
      [Event.validateIns, Event.validateOuts] := by
  unfold OnnxBackend.CreateExecutionContext chosenFilename
  rw [if_pos rfl]
  simp only
  rw [hlk]
  simp only
  rw [if_neg (by simp), hcs]
  simp only
  rw [if_pos hsv]
  rw [if_neg (by rw [hso]; exact Bool.false_ne_true)]
  exact ⟨rfl, rfl⟩

/-- A total datatype conversion for witnesses: only `TYPE_INVALID` maps to the
undefined runtime-native type. -/
def convertSample : DataType → ONNXTensorElementDataType
  | DataType.TYPE_INVALID => ONNXTensorElementDataType.UNDEFINED
  | DataType.TYPE_BOOL => ONNXTensorElementDataType.BOOL
  | DataType.TYPE_FP32 => ONNXTensorElementDataType.FLOAT
  | DataType.TYPE_INT8 => ONNXTensorElementDataType.INT8
  | DataType.TYPE_STRING => ONNXTensorElementDataType.STRING

/-- A stub session exposing inputs "a" and "b" and output "y" (the spec's §8
schema-mismatch scenario). -/
def sessAB : Session := { inputNames := ["a", "b"], outputNames := ["y"] }

/-- An environment oracle for witnesses: no CUDA devices, a session exposing
input "x" and output "y", and no failures elsewhere. -/
def envSample : OrtEnv :=
  { deviceProps := fun _ => Except.error "no device"
    appendCudaProvider := fun _ => none
    createSession := fun _ => Except.ok { inputNames := ["x"], outputNames := ["y"] }
    createCpuAllocatorInfo := none }

/-- C8: creation-time schema validation — a declaration whose every input
(resp. output) name is among the session's exposed names and whose datatypes
all convert to a defined runtime-native type validates successfully; the first
declared input (resp. output) that is missing from the exposed names or whose
datatype converts to the undefined type makes validation fail with a status
naming that input (resp. output); on a successful `CreateExecutionContext` the
creation trace performs input validation and output validation exactly once
each; a failing input validation becomes the creation status (with only the
input validation performed) and a failing output validation likewise becomes
the creation status (after the one input validation); and `Context::Run` never
performs validation. -/
theorem C8_schema_validation :
    (∀ (n : String) (sess : Session)
        (convert : DataType → ONNXTensorElementDataType) (ios : List ModelInput),
      (∀ io ∈ ios, (InputNames sess).contains io.name = true ∧
        convert io.data_type ≠ ONNXTensorElementDataType.UNDEFINED) →
      ValidateInputs n sess convert ios = Status.Success) ∧
    (∀ (n : String) (sess : Session)
        (convert : DataType → ONNXTensorElementDataType) (ios : List ModelOutput),
      (∀ io ∈ ios, (OutputNames sess).contains io.name = true ∧
        convert io.data_type ≠ ONNXTensorElementDataType.UNDEFINED) →
      ValidateOutputs n sess convert ios = Status.Success) ∧
    (∀ (n : String) (sess : Session)
        (convert : DataType → ONNXTensorElementDataType)
        (ios1 : List ModelInput) (io : ModelInput) (ios2 : List ModelInput),
      (∀ j ∈ ios1, (InputNames sess).contains j.name = true ∧
        convert j.data_type ≠ ONNXTensorElementDataType.UNDEFINED) →
      ((InputNames sess).contains io.name = false ∨
        convert io.data_type = ONNXTensorElementDataType.UNDEFINED) →
      (ValidateInputs n sess convert (ios1 ++ io :: ios2)).IsOk = false ∧
      ∃ pre post,
        (ValidateInputs n sess convert (ios1 ++ io :: ios2)).msg =
          pre ++ io.name ++ post) ∧
    (∀ (n : String) (sess : Session)
        (convert : DataType → ONNXTensorElementDataType)
        (ios1 : List ModelOutput) (io : ModelOutput) (ios2 : List ModelOutput),
      (∀ j ∈ ios1, (OutputNames sess).contains j.name = true ∧
        convert j.data_type ≠ ONNXTensorElementDataType.UNDEFINED) →
      ((OutputNames sess).contains io.name = false ∨
        convert io.data_type = ONNXTensorElementDataType.UNDEFINED) →
      (ValidateOutputs n sess convert (ios1 ++ io :: ios2)).IsOk = false ∧
      ∃ pre post,
        (ValidateOutputs n sess convert (ios1 ++ io :: ios2)).msg =
          pre ++ io.name ++ post) ∧
    (∀ (b : OnnxBackend) (env : OrtEnv)
        (convert : DataType → ONNXTensorElementDataType) (iname : String)
        (d : Int) (paths : List (String × String)),
      (OnnxBackend.CreateExecutionContext b env convert iname d paths).1.IsOk = true →
      (OnnxBackend.CreateExecutionContext b env convert iname d paths).2.2 =
        [Event.validateIns, Event.validateOuts]) ∧
    (∀ (b : OnnxBackend) (env : OrtEnv)
        (convert : DataType → ONNXTensorElementDataType) (iname : String)
        (paths : List (String × String)) (path : String) (sess : Session),
      paths.lookup b.config.default_model_filename = some path →
      env.createSession path = Except.ok sess →
      (ValidateInputs iname sess convert b.config.input).IsOk = false →
      (OnnxBackend.CreateExecutionContext b env convert iname
          OnnxBackend.Context.NO_GPU_DEVICE paths).1 =
        ValidateInputs iname sess convert b.config.input ∧
      (OnnxBackend.CreateExecutionContext b env convert iname
          OnnxBackend.Context.NO_GPU_DEVICE paths).2.2 = [Event.validateIns]) ∧
    (∀ (b : OnnxBackend) (env : OrtEnv)
        (convert : DataType → ONNXTensorElementDataType) (iname : String)
        (paths : List (String × String)) (path : String) (sess : Session),
      paths.lookup b.config.default_model_filename = some path →
      env.createSession path = Except.ok sess →
      (ValidateInputs iname sess convert b.config.input).IsOk = true →
      (ValidateOutputs iname sess convert b.config.output).IsOk = false →
      (OnnxBackend.CreateExecutionContext b env convert iname
          OnnxBackend.Context.NO_GPU_DEVICE paths).1 =
        ValidateOutputs iname sess convert b.config.output ∧
      (OnnxBackend.CreateExecutionContext b env convert iname
          OnnxBackend.Context.NO_GPU_DEVICE paths).2.2 =
        [Event.validateIns, Event.validateOuts]) ∧
    (∀ (ctx : OnnxBackend.Context) (cfg : ModelConfig) (ort : Ort)
        (payloads : List Payload),
      Event.validateIns ∉ (OnnxBackend.Context.Run ctx cfg ort payloads).2.2.2 ∧
      Event.validateOuts ∉ (OnnxBackend.Context.Run ctx cfg ort payloads).2.2.2) := by
  refine ⟨?_, ?_, ?_, ?_, ?_, ?_, ?_, ?_⟩
  · exact fun n sess convert ios h => validateInputList_ok n (InputNames sess) convert ios h
  · exact fun n sess convert ios h => validateOutputList_ok n (OutputNames sess) convert ios h
  · exact fun n sess convert ios1 io ios2 hpre hbad =>
      validateInputList_offender n (InputNames sess) convert ios1 io ios2 hpre hbad
  · exact fun n sess convert ios1 io ios2 hpre hbad =>
      validateOutputList_offender n (OutputNames sess) convert ios1 io ios2 hpre hbad
  · exact fun b env convert iname d paths h =>
      create_status_ok_trace b env convert iname d paths h
  · exact fun b env convert iname paths path sess hlk hcs hsv =>
      create_input_validation_fail b env convert iname paths path sess hlk hcs hsv
  · exact fun b env convert iname paths path sess hlk hcs hsv hso =>
      create_output_validation_fail b env convert iname paths path sess hlk hcs hsv hso
  · intro ctx cfg ort payloads
    constructor
    · intro hmem
      cases contextRun_trace ctx cfg ort payloads Event.validateIns hmem
    · intro hmem
      cases contextRun_trace ctx cfg ort payloads Event.validateOuts hmem

/-- The session that `envSample.createSession` produces: input "x", output "y". -/
def sessXY : Session := { inputNames := ["x"], outputNames := ["y"] }

/-- A configuration like `cfgSample` but declaring an output "z" that `sessXY`
does not expose. -/
def cfgBadOut : ModelConfig :=
  { cfgSample with output := [⟨"z", DataType.TYPE_FP32, [2]⟩] }

/-- A backend holding `cfgBadOut` and no contexts yet. -/
def backendBadOut : OnnxBackend :=
  { name := "badout", config := cfgBadOut, contexts := [] }

/-- C8 witness: with a session exposing inputs "a" and "b", a configuration
declaring inputs "a" and "c" fails input validation with a status whose message
names "c"; a successful creation against `envSample` validates exactly once;
and a configuration declaring the unexposed output "z" fails creation with the
output-validation status after one input validation and one output
validation. -/
theorem C8_schema_validation_witness :
    ((ValidateInputs "m" sessAB convertSample
        ([⟨"a", DataType.TYPE_FP32, [2]⟩] ++ ⟨"c", DataType.TYPE_FP32, [2]⟩ :: [])).IsOk
      = false ∧
      ∃ pre post,
        (ValidateInputs "m" sessAB convertSample
            ([⟨"a", DataType.TYPE_FP32, [2]⟩] ++ ⟨"c", DataType.TYPE_FP32, [2]⟩ :: [])).msg =
          pre ++ "c" ++ post) ∧
    (OnnxBackend.CreateExecutionContext backendSample envSample convertSample
        "sample_0_cpu" OnnxBackend.Context.NO_GPU_DEVICE
        [("model.onnx", "/models/model.onnx")]).2.2 =
      [Event.validateIns, Event.validateOuts] ∧
    (OnnxBackend.CreateExecutionContext backendBadOut envSample convertSample
        "badout_0_cpu" OnnxBackend.Context.NO_GPU_DEVICE
        [("model.onnx", "/models/model.onnx")]).1 =
      ValidateOutputs "badout_0_cpu" sessXY convertSample backendBadOut.config.output ∧
    (OnnxBackend.CreateExecutionContext backendBadOut envSample convertSample
        "badout_0_cpu" OnnxBackend.Context.NO_GPU_DEVICE
        [("model.onnx", "/models/model.onnx")]).2.2 =
      [Event.validateIns, Event.validateOuts] :=
  ⟨C8_schema_validation.2.2.1 "m" sessAB convertSample
      [⟨"a", DataType.TYPE_FP32, [2]⟩] ⟨"c", DataType.TYPE_FP32, [2]⟩ []
      (by decide) (by decide),
    C8_schema_validation.2.2.2.2.1 backendSample envSample convertSample
      "sample_0_cpu" OnnxBackend.Context.NO_GPU_DEVICE
      [("model.onnx", "/models/model.onnx")] (by decide),
    (C8_schema_validation.2.2.2.2.2.2.1 backendBadOut envSample convertSample
      "badout_0_cpu" [("model.onnx", "/models/model.onnx")]
      "/models/model.onnx" sessXY rfl rfl (by decide) (by decide)).1,
    (C8_schema_validation.2.2.2.2.2.2.1 backendBadOut envSample convertSample
      "badout_0_cpu" [("model.onnx", "/models/model.onnx")]
      "/models/model.onnx" sessXY rfl rfl (by decide) (by decide)).2⟩

/-- C9: instance artifact resolution — a CPU instance (`NO_GPU_DEVICE`) always
chooses the configuration's default model filename; a GPU instance whose
compute-capability query yields (major, minor) chooses the
capability-to-filename lookup of the string "major.minor", which returns the
mapped filename when present and the default filename otherwise; and when the
chosen filename is not among the available artifact paths,
`CreateExecutionContext` fails with the error naming that filename and leaves
the backend — in particular its context list — unchanged. -/
theorem C9_artifact_resolution :
    (∀ (cfg : ModelConfig) (env : OrtEnv) (n : String),
      chosenFilename cfg env n OnnxBackend.Context.NO_GPU_DEVICE =
        Except.ok cfg.default_model_filename) ∧
    (∀ (cfg : ModelConfig) (env : OrtEnv) (n : String) (d : Int) (maj mnr : Nat),
      d ≠ OnnxBackend.Context.NO_GPU_DEVICE →
      env.deviceProps d = Except.ok (maj, mnr) →
      chosenFilename cfg env n d =
        Except.ok (ccModelFilename cfg (toString maj ++ "." ++ toString mnr))) ∧
    (∀ (cfg : ModelConfig) (cc f : String),
      cfg.cc_model_filenames.lookup cc = some f → ccModelFilename cfg cc = f) ∧
    (∀ (cfg : ModelConfig) (cc : String),
      cfg.cc_model_filenames.lookup cc = none →
      ccModelFilename cfg cc = cfg.default_model_filename) ∧
    (∀ (b : OnnxBackend) (env : OrtEnv)
        (convert : DataType → ONNXTensorElementDataType) (iname : String)
        (d : Int) (paths : List (String × String)) (f : String),
      chosenFilename b.config env b.name d = Except.ok f →
      paths.lookup f = none →
      OnnxBackend.CreateExecutionContext b env convert iname d paths =
        (⟨RequestStatusCode.INTERNAL,
           "unable to find model '" ++ f ++ "' for " ++ b.name⟩, b, [])) := by
  refine ⟨?_, ?_, ?_, ?_, ?_⟩
  · intro cfg env n
    unfold chosenFilename
    rw [if_pos rfl]
  · intro cfg env n d maj mnr hd hp
    unfold chosenFilename
    rw [if_neg hd, hp]
  · intro cfg cc f h
    unfold ccModelFilename
    rw [h]
  · intro cfg cc h
    unfold ccModelFilename
    rw [h]
  · intro b env convert iname d paths f hcf hlk
    unfold OnnxBackend.CreateExecutionContext
    rw [hcf]
    simp only []
    rw [hlk]

/-- C9 witness: with an empty artifact-path table, CPU creation on the sample
backend fails with the error naming the default filename "model.onnx" and adds
no context. -/
theorem C9_artifact_resolution_witness :
    OnnxBackend.CreateExecutionContext backendSample envSample convertSample
        "sample_0_cpu" OnnxBackend.Context.NO_GPU_DEVICE [] =
      (⟨RequestStatusCode.INTERNAL,
         "unable to find model '" ++ "model.onnx" ++ "' for " ++ backendSample.name⟩,
        backendSample, []) :=
  C9_artifact_resolution.2.2.2.2 backendSample envSample convertSample
    "sample_0_cpu" OnnxBackend.Context.NO_GPU_DEVICE [] "model.onnx" rfl rfl

/-- A configuration with a negative configured maximum batch size, for the C10
witness. -/
def cfgNegBatch : ModelConfig :=
  { cfgSample with max_batch_size := -3 }

/-- A backend holding `cfgNegBatch` and no contexts yet. -/
def backendNegBatch : OnnxBackend :=
  { name := "neg", config := cfgNegBatch, contexts := [] }

/-- C10: the effective max batch size of a created context — a configured
maximum batch size that is zero or negative yields `NO_BATCHING` (which is 0),
i.e. negative configured maxima are silently treated like "batching
unsupported" rather than rejected, while any positive configured value is taken
as-is; and whenever `CreateExecutionContext` resolves an available artifact it
appends exactly one context whose `max_batch_size_` is that effective value. -/
theorem C10_effective_max_batch_size :
    (∀ c : Int, c ≤ 0 → effectiveMaxBatch c = OnnxBackend.Context.NO_BATCHING) ∧
    OnnxBackend.Context.NO_BATCHING = 0 ∧
    (∀ c : Int, 0 < c → effectiveMaxBatch c = c) ∧
    (∀ (b : OnnxBackend) (env : OrtEnv)
        (convert : DataType → ONNXTensorElementDataType) (iname : String)
        (d : Int) (paths : List (String × String)) (f path : String),
      chosenFilename b.config env b.name d = Except.ok f →
      paths.lookup f = some path →
      ∃ c, (OnnxBackend.CreateExecutionContext b env convert iname d paths).2.1.contexts =
          b.contexts ++ [c] ∧
        c.max_batch_size = effectiveMaxBatch b.config.max_batch_size ∧
        c.name = iname ∧ c.gpu_device = d) := by
  refine ⟨?_, rfl, ?_, ?_⟩
  · intro c hc
    unfold effectiveMaxBatch
    rw [if_pos hc]
  · intro c hc
    unfold effectiveMaxBatch
    rw [if_neg (by omega)]
  · exact fun b env convert iname d paths f path hcf hlk =>
      create_appends_context b env convert iname d paths f path hcf hlk

/-- C10 witness: creating a CPU context for a configuration with configured
maximum batch size -3 appends one context whose effective max batch size is
`NO_BATCHING` = 0. -/
theorem C10_effective_max_batch_size_witness :
    effectiveMaxBatch (-3 : Int) = OnnxBackend.Context.NO_BATCHING ∧
    (∃ c, (OnnxBackend.CreateExecutionContext backendNegBatch envSample
          convertSample "neg_0_cpu" OnnxBackend.Context.NO_GPU_DEVICE
          [("model.onnx", "/models/model.onnx")]).2.1.contexts =
        backendNegBatch.contexts ++ [c] ∧
      c.max_batch_size = effectiveMaxBatch backendNegBatch.config.max_batch_size ∧
      c.name = "neg_0_cpu" ∧ c.gpu_device = OnnxBackend.Context.NO_GPU_DEVICE) :=
  ⟨C10_effective_max_batch_size.1 (-3) (by omega),
    C10_effective_max_batch_size.2.2.2 backendNegBatch envSample convertSample
      "neg_0_cpu" OnnxBackend.Context.NO_GPU_DEVICE
      [("model.onnx", "/models/model.onnx")] "model.onnx"
      "/models/model.onnx" rfl rfl⟩

end OnnxSpec
